import Mathlib

set_option maxRecDepth 20000

/-!
Shallow embedding of the form submission / validation logic of the
restaurant front end: the Reservation, Newsletter and LoyaltyProgram
components (src/restaurant_frontend/src/components).  Each component keeps a
`formData` record, an `errors` object, an `isSubmitting` flag and a
`submitStatus` value; the handlers `handleInputChange`, `handleSubmit` (split
here into its synchronous start and its post-delay resolution) and, for the
loyalty program, `toggleSignupForm` are translated function by function.
JavaScript objects with optional keys become records of `Option String`
where `none` models an absent key; `Math.random()` becomes an explicit
rational draw in `[0, 1)`.
-/

/-- Truthiness of a value read from a JavaScript `errors` object:
an absent key (`undefined`, here `none`) and the empty string are falsy,
every non-empty string is truthy. -/
def jsTruthy : Option String → Bool
  | none => false
  | some s => !s.isEmpty

/-- Model of JavaScript `String.prototype.trim` on the character list of a
string: leading and trailing whitespace removed. -/
def trimChars (s : String) : List Char :=
  ((s.toList.dropWhile Char.isWhitespace).reverse.dropWhile Char.isWhitespace).reverse

/-- Characters admitted by the character class of the email regular
expression, written there as the complement of whitespace and of the
at-sign. -/
def emailChar (c : Char) : Bool :=
  !c.isWhitespace && !(c == '@')

/-- Split a character list at the first occurrence of `sep`:
`some (before, after)` when `sep` occurs, `none` otherwise. -/
def splitAtChar (sep : Char) : List Char → Option (List Char × List Char)
  | [] => none
  | c :: cs =>
    if c == sep then some ([], cs)
    else
      match splitAtChar sep cs with
      | some p => some (c :: p.1, p.2)
      | none => none

/-- Model of the email test used by every form validator (Reservation.js
line 64, Newsletter.js line 25, LoyaltyProgram.js line 104): the anchored
pattern of one or more class characters, an at-sign, one or more class
characters, a literal dot and one or more class characters.  Both character
classes exclude the at-sign, so a match decomposes the string at its unique
at-sign; the part before it must be a non-empty run of class characters and
the part after it a run of class characters containing a dot that is neither
its first nor its last character. -/
def emailRegexTest (s : String) : Bool :=
  match splitAtChar '@' s.toList with
  | none => false
  | some (a, b) =>
    !a.isEmpty && a.all emailChar && b.all emailChar &&
      decide ('.' ∈ (b.drop 1).dropLast)

/-- Characters admitted by the character class of the phone regular
expression: digits, whitespace, hyphen and parentheses. -/
def phoneChar (c : Char) : Bool :=
  c.isDigit || c.isWhitespace || c == '-' || c == '(' || c == ')'

/-- Model of the phone test of Reservation.js line 70 and LoyaltyProgram.js
line 116: whitespace is removed from the value, then the anchored pattern
requires an optional leading plus sign followed by at least ten class
characters.  A plus sign is not a class character, so a leading plus must be
consumed by the optional branch. -/
def phoneRegexTest (s : String) : Bool :=
  let cs := s.toList.filter (fun c => !c.isWhitespace)
  match cs with
  | '+' :: rest => decide (10 ≤ rest.length) && rest.all phoneChar
  | _ => decide (10 ≤ cs.length) && cs.all phoneChar

/-- The submission status banner value: `submitStatus` holds `'success'`,
`'error'` or `null`, modelled as `Option SubmitStatus`. -/
inductive SubmitStatus where
  | success
  | error
  deriving DecidableEq

/-- Observable side effects of a submit attempt: scheduling the simulated
network delay (the timeout, in milliseconds) and drawing one pseudo-random
number. -/
inductive FormAction where
  | startDelay (ms : Nat)
  | draw
  deriving DecidableEq

namespace Reservation

/-- The reservation form values (Reservation.js lines 10-18).  The
party-size selector stores a numeric value, modelled as an integer; all
other fields are strings. -/
structure FormData where
  date : String
  time : String
  partySize : Int
  name : String
  email : String
  phone : String
  specialRequests : String
  deriving DecidableEq

/-- Initial reservation form values (Reservation.js lines 10-18). -/
def initialFormData : FormData :=
  { date := "", time := "", partySize := 2, name := "", email := "",
    phone := "", specialRequests := "" }

/-- Names of the reservation form fields. -/
inductive Field where
  | date | time | partySize | name | email | phone | specialRequests
  deriving DecidableEq

/-- The `errors` object of the reservation form: one optional entry per
field name, where `none` models an absent key and `some ""` a key holding
the empty string. -/
structure Errors where
  date : Option String
  time : Option String
  partySize : Option String
  name : Option String
  email : Option String
  phone : Option String
  specialRequests : Option String
  deriving DecidableEq

/-- The empty errors object. -/
def emptyErrors : Errors :=
  { date := none, time := none, partySize := none, name := none,
    email := none, phone := none, specialRequests := none }

/-- Read the entry stored in the errors object under a field name. -/
def Errors.get (e : Errors) : Field → Option String
  | .date => e.date
  | .time => e.time
  | .partySize => e.partySize
  | .name => e.name
  | .email => e.email
  | .phone => e.phone
  | .specialRequests => e.specialRequests

/-- Write the entry stored in the errors object under a field name. -/
def Errors.set (e : Errors) : Field → Option String → Errors
  | .date, v => { e with date := v }
  | .time, v => { e with time := v }
  | .partySize, v => { e with partySize := v }
  | .name, v => { e with name := v }
  | .email, v => { e with email := v }
  | .phone, v => { e with phone := v }
  | .specialRequests, v => { e with specialRequests := v }

/-- The guard on the validator result in `handleSubmit`: some key is
present in the object. -/
def hasErrors (e : Errors) : Bool :=
  e.date.isSome || e.time.isSome || e.partySize.isSome || e.name.isSome ||
    e.email.isSome || e.phone.isSome || e.specialRequests.isSome

/-- `validateForm` (Reservation.js lines 47-79): date and time must be
non-empty (a plain truthiness test, without trimming), name, email and
phone must not trim to the empty string, a non-empty email must pass the
email test, a non-empty phone must pass the phone test, and the party size
must lie in the closed range from 1 to 12.  The special-requests field is
never checked, so its key is never present in the result. -/
def validateForm (d : FormData) : Errors :=
  { date := if d.date = "" then some "Please select a date" else none,
    time := if d.time = "" then some "Please select a time" else none,
    name := if trimChars d.name = [] then some "Name is required" else none,
    email :=
      if trimChars d.email = [] then some "Email is required"
      else if emailRegexTest d.email then none
      else some "Please enter a valid email address",
    phone :=
      if trimChars d.phone = [] then some "Phone number is required"
      else if phoneRegexTest d.phone then none
      else some "Please enter a valid phone number",
    partySize :=
      if d.partySize < 1 ∨ 12 < d.partySize then
        some "Party size must be between 1 and 12"
      else none,
    specialRequests := none }

/-- The reservation component state: form values, errors object,
in-flight flag and status banner value (Reservation.js lines 10-22). -/
structure State where
  formData : FormData
  errors : Errors
  isSubmitting : Bool
  submitStatus : Option SubmitStatus
  deriving DecidableEq

/-- Component state at mount. -/
def initialState : State :=
  { formData := initialFormData, errors := emptyErrors,
    isSubmitting := false, submitStatus := none }

/-- An input-change event: the field edited together with the new value
taken from the event target. -/
inductive Edit where
  | date (v : String)
  | time (v : String)
  | partySize (v : Int)
  | name (v : String)
  | email (v : String)
  | phone (v : String)
  | specialRequests (v : String)
  deriving DecidableEq

/-- The field an edit event targets. -/
def Edit.target : Edit → Field
  | .date _ => .date
  | .time _ => .time
  | .partySize _ => .partySize
  | .name _ => .name
  | .email _ => .email
  | .phone _ => .phone
  | .specialRequests _ => .specialRequests

/-- Store the edited value verbatim into the form data. -/
def Edit.apply (d : FormData) : Edit → FormData
  | .date v => { d with date := v }
  | .time v => { d with time := v }
  | .partySize v => { d with partySize := v }
  | .name v => { d with name := v }
  | .email v => { d with email := v }
  | .phone v => { d with phone := v }
  | .specialRequests v => { d with specialRequests := v }

/-- `handleInputChange` (Reservation.js lines 81-95): the value is stored
verbatim, and when the errors object currently holds a truthy entry for the
edited field that entry is overwritten with the empty string. -/
def handleInputChange (s : State) (ev : Edit) : State :=
  { s with
    formData := ev.apply s.formData,
    errors :=
      if jsTruthy (s.errors.get ev.target) then s.errors.set ev.target (some "")
      else s.errors }

/-- Synchronous part of `handleSubmit` (Reservation.js lines 107-122) as
reached through the submit button, which is rendered with
`disabled={isSubmitting}` (line 304): while a submission is in flight the
submit event does nothing.  Otherwise the validator runs on the current
values; when its result has a key the errors are published and nothing else
happens; when it is empty the controller clears errors and status, sets the
in-flight flag, schedules the 1500 millisecond delay and will make one
pseudo-random draw when it resolves. -/
def handleSubmitStart (s : State) : State × List FormAction :=
  if s.isSubmitting then (s, [])
  else
    let formErrors := validateForm s.formData
    if hasErrors formErrors then ({ s with errors := formErrors }, [])
    else
      ({ s with isSubmitting := true, submitStatus := none, errors := emptyErrors },
        [FormAction.startDelay 1500, FormAction.draw])

/-- Resolution of the simulated API call (Reservation.js lines 120-146):
the outcome is a success exactly when the draw exceeds one fifth; on success
the status becomes success and the form values are reset to their defaults,
on failure the status becomes error and the values are left untouched; the
`finally` clause clears the in-flight flag on both paths. -/
def handleSubmitResolve (s : State) (r : ℚ) : State :=
  if (1 : ℚ)/5 < r then
    { s with submitStatus := some SubmitStatus.success,
             formData := initialFormData, isSubmitting := false }
  else
    { s with submitStatus := some SubmitStatus.error, isSubmitting := false }

/-- Reachable reservation component states, instrumented with the result of
the most recent validation pass (`none` before any pass has run).  A
resolution event exists only while a submission is in flight and consumes
one draw from the half-open unit interval. -/
inductive Reach : State → Option Errors → Prop where
  | init : Reach initialState none
  | edit (s : State) (g : Option Errors) (ev : Edit) :
      Reach s g → Reach (handleInputChange s ev) g
  | submit (s : State) (g : Option Errors) :
      Reach s g →
      Reach (handleSubmitStart s).1
        (if s.isSubmitting then g else some (validateForm s.formData))
  | resolve (s : State) (g : Option Errors) (r : ℚ) :
      Reach s g → s.isSubmitting = true → 0 ≤ r → r < 1 →
      Reach (handleSubmitResolve s r) g

end Reservation

namespace Newsletter

/-- The newsletter form values (Newsletter.js lines 10-13). -/
structure FormData where
  email : String
  firstName : String
  deriving DecidableEq

/-- Initial newsletter form values (Newsletter.js lines 10-13). -/
def initialFormData : FormData :=
  { email := "", firstName := "" }

/-- Names of the newsletter form fields. -/
inductive Field where
  | email | firstName
  deriving DecidableEq

/-- The `errors` object of the newsletter form. -/
structure Errors where
  email : Option String
  firstName : Option String
  deriving DecidableEq

/-- The empty errors object. -/
def emptyErrors : Errors :=
  { email := none, firstName := none }

/-- Read the entry stored in the errors object under a field name. -/
def Errors.get (e : Errors) : Field → Option String
  | .email => e.email
  | .firstName => e.firstName

/-- Write the entry stored in the errors object under a field name. -/
def Errors.set (e : Errors) : Field → Option String → Errors
  | .email, v => { e with email := v }
  | .firstName, v => { e with firstName := v }

/-- The guard on the validator result in `handleSubmit`: some key is
present in the object. -/
def hasErrors (e : Errors) : Bool :=
  e.email.isSome || e.firstName.isSome

/-- `validateForm` (Newsletter.js lines 20-36): the email must not trim to
the empty string and must then pass the email test; the first name must not
trim to the empty string and its trimmed form must hold at least two
characters. -/
def validateForm (d : FormData) : Errors :=
  { email :=
      if trimChars d.email = [] then some "Email address is required"
      else if emailRegexTest d.email then none
      else some "Please enter a valid email address",
    firstName :=
      if trimChars d.firstName = [] then some "First name is required"
      else if (trimChars d.firstName).length < 2 then
        some "First name must be at least 2 characters"
      else none }

/-- The newsletter component state (Newsletter.js lines 10-17). -/
structure State where
  formData : FormData
  errors : Errors
  isSubmitting : Bool
  submitStatus : Option SubmitStatus
  deriving DecidableEq

/-- Component state at mount. -/
def initialState : State :=
  { formData := initialFormData, errors := emptyErrors,
    isSubmitting := false, submitStatus := none }

/-- An input-change event: the field edited together with the new value
taken from the event target. -/
inductive Edit where
  | email (v : String)
  | firstName (v : String)
  deriving DecidableEq

/-- The field an edit event targets. -/
def Edit.target : Edit → Field
  | .email _ => .email
  | .firstName _ => .firstName

/-- Store the edited value verbatim into the form data. -/
def Edit.apply (d : FormData) : Edit → FormData
  | .email v => { d with email := v }
  | .firstName v => { d with firstName := v }

/-- `handleInputChange` (Newsletter.js lines 38-52): the value is stored
verbatim, and when the errors object currently holds a truthy entry for the
edited field that entry is overwritten with the empty string. -/
def handleInputChange (s : State) (ev : Edit) : State :=
  { s with
    formData := ev.apply s.formData,
    errors :=
      if jsTruthy (s.errors.get ev.target) then s.errors.set ev.target (some "")
      else s.errors }

/-- Synchronous part of `handleSubmit` (Newsletter.js lines 54-66) as
reached through the submit button, rendered with `disabled={isSubmitting}`
(line 157): a submit event does nothing while a submission is in flight;
otherwise validation errors are published and block the attempt, and a clean
validation enters the in-flight state, scheduling the 1200 millisecond delay
followed by one pseudo-random draw. -/
def handleSubmitStart (s : State) : State × List FormAction :=
  if s.isSubmitting then (s, [])
  else
    let formErrors := validateForm s.formData
    if hasErrors formErrors then ({ s with errors := formErrors }, [])
    else
      ({ s with isSubmitting := true, submitStatus := none, errors := emptyErrors },
        [FormAction.startDelay 1200, FormAction.draw])

/-- Resolution of the simulated API call (Newsletter.js lines 67-88): the
outcome is a success exactly when the draw exceeds one tenth; on success the
status becomes success and the values are reset to their defaults, on
failure the status becomes error and the values are untouched; the
in-flight flag is cleared on both paths. -/
def handleSubmitResolve (s : State) (r : ℚ) : State :=
  if (1 : ℚ)/10 < r then
    { s with submitStatus := some SubmitStatus.success,
             formData := initialFormData, isSubmitting := false }
  else
    { s with submitStatus := some SubmitStatus.error, isSubmitting := false }

end Newsletter

namespace Loyalty

/-- The loyalty signup form values, called `membershipData` in the source
(LoyaltyProgram.js lines 10-14). -/
structure MembershipData where
  email : String
  firstName : String
  phone : String
  deriving DecidableEq

/-- Initial loyalty signup values (LoyaltyProgram.js lines 10-14). -/
def initialMembershipData : MembershipData :=
  { email := "", firstName := "", phone := "" }

/-- The `errors` object of the loyalty signup form. -/
structure Errors where
  email : Option String
  firstName : Option String
  phone : Option String
  deriving DecidableEq

/-- The empty errors object. -/
def emptyErrors : Errors :=
  { email := none, firstName := none, phone := none }

/-- The guard on the validator result in `handleSubmit`: some key is
present in the object. -/
def hasErrors (e : Errors) : Bool :=
  e.email.isSome || e.firstName.isSome || e.phone.isSome

/-- `validateForm` (LoyaltyProgram.js lines 99-121): email and first name
exactly as in the newsletter form, plus the phone rule of the reservation
form. -/
def validateForm (d : MembershipData) : Errors :=
  { email :=
      if trimChars d.email = [] then some "Email address is required"
      else if emailRegexTest d.email then none
      else some "Please enter a valid email address",
    firstName :=
      if trimChars d.firstName = [] then some "First name is required"
      else if (trimChars d.firstName).length < 2 then
        some "First name must be at least 2 characters"
      else none,
    phone :=
      if trimChars d.phone = [] then some "Phone number is required"
      else if phoneRegexTest d.phone then none
      else some "Please enter a valid phone number" }

/-- The loyalty program component state (LoyaltyProgram.js lines 10-19),
including the flag controlling whether the signup form is shown. -/
structure State where
  membershipData : MembershipData
  errors : Errors
  isSubmitting : Bool
  submitStatus : Option SubmitStatus
  showSignupForm : Bool
  deriving DecidableEq

/-- Component state at mount. -/
def initialState : State :=
  { membershipData := initialMembershipData, errors := emptyErrors,
    isSubmitting := false, submitStatus := none, showSignupForm := false }

/-- Synchronous part of `handleSubmit` (LoyaltyProgram.js lines 139-151) as
reached through the submit button, rendered with `disabled={isSubmitting}`
(line 351): a submit event does nothing while a submission is in flight;
otherwise validation errors are published and block the attempt, and a clean
validation enters the in-flight state, scheduling the 1200 millisecond delay
followed by one pseudo-random draw. -/
def handleSubmitStart (s : State) : State × List FormAction :=
  if s.isSubmitting then (s, [])
  else
    let formErrors := validateForm s.membershipData
    if hasErrors formErrors then ({ s with errors := formErrors }, [])
    else
      ({ s with isSubmitting := true, submitStatus := none, errors := emptyErrors },
        [FormAction.startDelay 1200, FormAction.draw])

/-- Resolution of the simulated API call (LoyaltyProgram.js lines 152-175):
the outcome is a success exactly when the draw exceeds one tenth; on success
the status becomes success, the values are reset to their defaults and the
signup form is hidden, on failure the status becomes error and the values
are untouched; the in-flight flag is cleared on both paths. -/
def handleSubmitResolve (s : State) (r : ℚ) : State :=
  if (1 : ℚ)/10 < r then
    { s with submitStatus := some SubmitStatus.success,
             membershipData := initialMembershipData,
             showSignupForm := false, isSubmitting := false }
  else
    { s with submitStatus := some SubmitStatus.error, isSubmitting := false }

/-- `toggleSignupForm` (LoyaltyProgram.js lines 178-182): flips the
visibility of the signup form and resets the status banner and the errors
object. -/
def toggleSignupForm (s : State) : State :=
  { s with showSignupForm := !s.showSignupForm, submitStatus := none,
           errors := emptyErrors }

end Loyalty

/-! Helper lemmas about the errors objects and the regular-expression
models. -/

theorem jsTruthy_isSome {o : Option String} (h : jsTruthy o = true) :
    o.isSome = true := by
  cases o with
  | none => simp [jsTruthy] at h
  | some s => rfl

theorem Reservation.Errors.res_get_set_self (e : Errors) (f : Field) (v : Option String) :
    (e.set f v).get f = v := by
  cases f <;> rfl

theorem Reservation.Errors.res_get_set_of_ne (e : Errors) (f f' : Field) (v : Option String)
    (h : f' ≠ f) : (e.set f v).get f' = e.get f' := by
  cases f <;> cases f' <;> first | rfl | exact absurd rfl h

theorem Newsletter.Errors.news_get_set_self (e : Errors) (f : Field) (v : Option String) :
    (e.set f v).get f = v := by
  cases f <;> rfl

theorem Newsletter.Errors.news_get_set_of_ne (e : Errors) (f f' : Field) (v : Option String)
    (h : f' ≠ f) : (e.set f v).get f' = e.get f' := by
  cases f <;> cases f' <;> first | rfl | exact absurd rfl h

theorem splitAtChar_eq_none {sep : Char} :
    ∀ {l : List Char}, sep ∉ l → splitAtChar sep l = none := by
  intro l
  induction l with
  | nil => intro _; rfl
  | cons c cs ih =>
      intro h
      have hc : ¬ c = sep := fun hcc => h (hcc ▸ List.mem_cons_self c cs)
      have hcs : sep ∉ cs := fun hm => h (List.mem_cons_of_mem c hm)
      simp only [splitAtChar]
      rw [if_neg (by simp [hc]), ih hcs]

/-- An email value that the claim calls syntactically invalid: either it
contains no at-sign, or the part after the first at-sign contains no dot. -/
def emailShapeInvalid (s : String) : Prop :=
  '@' ∉ s.toList ∨
    ∃ a b, splitAtChar '@' s.toList = some (a, b) ∧ '.' ∉ b

theorem emailRegexTest_eq_false {s : String} (h : emailShapeInvalid s) :
    emailRegexTest s = false := by
  rcases h with h | ⟨a, b, hsplit, hdot⟩
  · unfold emailRegexTest
    rw [splitAtChar_eq_none h]
  · have hsub : (b.drop 1).dropLast.Sublist b :=
      (List.dropLast_sublist _).trans (List.drop_sublist 1 b)
    have hmem : ¬ '.' ∈ (b.drop 1).dropLast := fun hm => hdot (hsub.mem hm)
    unfold emailRegexTest
    rw [hsplit]
    show (!a.isEmpty && a.all emailChar && b.all emailChar &&
      decide ('.' ∈ (b.drop 1).dropLast)) = false
    rw [decide_eq_false hmem, Bool.and_false]

/-! Concrete states used by the witnesses and counterexamples.  The filled
reservation uses the scenario values of the specification. -/

/-- The reservation state after editing in a fully valid set of values,
starting from the mount state. -/
def resFilledState : Reservation.State :=
  Reservation.handleInputChange (Reservation.handleInputChange (Reservation.handleInputChange
    (Reservation.handleInputChange (Reservation.handleInputChange Reservation.initialState
      (Reservation.Edit.date "2024-03-01")) (Reservation.Edit.time "6:00 PM"))
    (Reservation.Edit.name "Jane Doe")) (Reservation.Edit.email "jane@example.com"))
    (Reservation.Edit.phone "1234567890")

/-- The reservation state with a submission in flight, reached by
submitting the filled state. -/
def resSubmittingState : Reservation.State :=
  (Reservation.handleSubmitStart resFilledState).1

/-- The reservation state after the in-flight submission resolves with a
draw of nine tenths, a success. -/
def resSuccessState : Reservation.State :=
  Reservation.handleSubmitResolve resSubmittingState ((9 : ℚ)/10)

/-- The reservation state after submitting the mount state: every required
field is empty, so the validator errors are published. -/
def resErrorsState : Reservation.State :=
  (Reservation.handleSubmitStart Reservation.initialState).1

/-- The newsletter state after submitting the mount state: both fields are
empty, so the validator errors are published. -/
def newsErrorsState : Newsletter.State :=
  (Newsletter.handleSubmitStart Newsletter.initialState).1

/-- A newsletter state holding valid values. -/
def newsFilledState : Newsletter.State :=
  { formData := { email := "jane@example.com", firstName := "Jane" },
    errors := Newsletter.emptyErrors, isSubmitting := false, submitStatus := none }

/-- A valid set of loyalty membership values. -/
def loyFilledData : Loyalty.MembershipData :=
  { email := "jane@example.com", firstName := "Jane", phone := "1234567890" }

/-- A loyalty state holding valid values with the signup form shown. -/
def loyFilledState : Loyalty.State :=
  { membershipData := loyFilledData, errors := Loyalty.emptyErrors,
    isSubmitting := false, submitStatus := none, showSignupForm := true }

theorem resFilledState_reach : Reservation.Reach resFilledState none :=
  Reservation.Reach.edit _ _ _ (Reservation.Reach.edit _ _ _ (Reservation.Reach.edit _ _ _
    (Reservation.Reach.edit _ _ _ (Reservation.Reach.edit _ _ _ Reservation.Reach.init))))

theorem resSubmittingState_reach :
    Reservation.Reach resSubmittingState
      (some (Reservation.validateForm resFilledState.formData)) :=
  Reservation.Reach.submit _ _ resFilledState_reach

theorem resSuccessState_reach :
    Reservation.Reach resSuccessState
      (some (Reservation.validateForm resFilledState.formData)) :=
  Reservation.Reach.resolve _ _ _ resSubmittingState_reach (by decide)
    (by norm_num) (by norm_num)

theorem resErrorsState_reach :
    Reservation.Reach resErrorsState
      (some (Reservation.validateForm Reservation.initialState.formData)) :=
  Reservation.Reach.submit _ _ Reservation.Reach.init

theorem resSuccessState_status :
    resSuccessState.submitStatus = some SubmitStatus.success := by
  show (Reservation.handleSubmitResolve resSubmittingState ((9 : ℚ)/10)).submitStatus = _
  unfold Reservation.handleSubmitResolve
  rw [if_pos (by norm_num)]

/-- C3: on every reachable reservation state with a submission in flight, a
second submit event has no observable effect: the state is unchanged, no
delay is scheduled and no pseudo-random draw is made, so no second
submission ever starts while one is in flight. -/
theorem second_submit_while_submitting_noop
    (s : Reservation.State) (g : Option Reservation.Errors)
    (_hreach : Reservation.Reach s g) (hs : s.isSubmitting = true) :
    Reservation.handleSubmitStart s = (s, []) := by
  unfold Reservation.handleSubmitStart
  rw [if_pos hs]

/-- Witness for the second-submit theorem at the concrete in-flight state
reached by filling and submitting the reservation form. -/
theorem second_submit_while_submitting_noop_witness :
    Reservation.handleSubmitStart resSubmittingState = (resSubmittingState, []) :=
  second_submit_while_submitting_noop resSubmittingState
    (some (Reservation.validateForm resFilledState.formData))
    resSubmittingState_reach (by decide)

/-- C9: the reservation validator produces a party-size error exactly when
the party size lies outside the closed range from 1 to 12. -/
theorem party_size_range_check (d : Reservation.FormData) :
    ((Reservation.validateForm d).partySize).isSome = true ↔
      (d.partySize < 1 ∨ 12 < d.partySize) := by
  by_cases h : d.partySize < 1 ∨ 12 < d.partySize <;>
    simp [Reservation.validateForm, h]

/-- Witness for the party-size theorem at a value outside the range. -/
theorem party_size_range_check_witness :
    ((Reservation.validateForm
        { Reservation.initialFormData with partySize := 13 }).partySize).isSome = true :=
  (party_size_range_check _).mpr (Or.inr (by norm_num))

/-- C10: the reservation validator never flags the special-requests field,
its whole result is unchanged between two value sets differing only in the
special-requests value, and consequently the special-requests value never
affects whether a submit attempt enters the submitting state. -/
theorem special_requests_never_flagged_and_no_influence :
    (∀ d : Reservation.FormData, (Reservation.validateForm d).specialRequests = none) ∧
    (∀ (d : Reservation.FormData) (v : String),
      Reservation.validateForm { d with specialRequests := v }
        = Reservation.validateForm d) ∧
    (∀ (s : Reservation.State) (v : String),
      (Reservation.handleSubmitStart
          { s with formData := { s.formData with specialRequests := v } }).1.isSubmitting
        = (Reservation.handleSubmitStart s).1.isSubmitting) := by
  refine ⟨fun d => rfl, fun d v => rfl, fun s v => ?_⟩
  have hv : Reservation.validateForm { s.formData with specialRequests := v }
      = Reservation.validateForm s.formData := rfl
  by_cases hs : s.isSubmitting = true <;>
    by_cases he : Reservation.hasErrors (Reservation.validateForm s.formData) = true <;>
      simp [Reservation.handleSubmitStart, hs, he, hv]

/-- C7: a validated submit attempt schedules the fixed delay followed by a
single pseudo-random draw (1500 milliseconds for the reservation, 1200 for
the newsletter and the loyalty signup), and the resolution is a success
exactly when the draw exceeds the fixed threshold (one fifth for the
reservation, one tenth for the newsletter and the loyalty signup). -/
theorem fixed_delay_and_success_threshold :
    (∀ s : Reservation.State, s.isSubmitting = false →
      Reservation.hasErrors (Reservation.validateForm s.formData) = false →
      (Reservation.handleSubmitStart s).2
        = [FormAction.startDelay 1500, FormAction.draw]) ∧
    (∀ (s : Reservation.State) (r : ℚ),
      (Reservation.handleSubmitResolve s r).submitStatus = some SubmitStatus.success
        ↔ (1 : ℚ)/5 < r) ∧
    (∀ s : Newsletter.State, s.isSubmitting = false →
      Newsletter.hasErrors (Newsletter.validateForm s.formData) = false →
      (Newsletter.handleSubmitStart s).2
        = [FormAction.startDelay 1200, FormAction.draw]) ∧
    (∀ (s : Newsletter.State) (r : ℚ),
      (Newsletter.handleSubmitResolve s r).submitStatus = some SubmitStatus.success
        ↔ (1 : ℚ)/10 < r) ∧
    (∀ s : Loyalty.State, s.isSubmitting = false →
      Loyalty.hasErrors (Loyalty.validateForm s.membershipData) = false →
      (Loyalty.handleSubmitStart s).2
        = [FormAction.startDelay 1200, FormAction.draw]) ∧
    (∀ (s : Loyalty.State) (r : ℚ),
      (Loyalty.handleSubmitResolve s r).submitStatus = some SubmitStatus.success
        ↔ (1 : ℚ)/10 < r) := by
  refine ⟨?_, ?_, ?_, ?_, ?_, ?_⟩
  · intro s hs he; simp [Reservation.handleSubmitStart, hs, he]
  · intro s r; unfold Reservation.handleSubmitResolve
    by_cases h : (1 : ℚ)/5 < r
    · rw [if_pos h]; simpa using h
    · rw [if_neg h]; simpa using h
  · intro s hs he; simp [Newsletter.handleSubmitStart, hs, he]
  · intro s r; unfold Newsletter.handleSubmitResolve
    by_cases h : (1 : ℚ)/10 < r
    · rw [if_pos h]; simpa using h
    · rw [if_neg h]; simpa using h
  · intro s hs he; simp [Loyalty.handleSubmitStart, hs, he]
  · intro s r; unfold Loyalty.handleSubmitResolve
    by_cases h : (1 : ℚ)/10 < r
    · rw [if_pos h]; simpa using h
    · rw [if_neg h]; simpa using h

/-- Witness for the delay-and-threshold theorem at concrete valid states of
the three forms and a concrete successful draw. -/
theorem fixed_delay_and_success_threshold_witness :
    (Reservation.handleSubmitStart resFilledState).2
        = [FormAction.startDelay 1500, FormAction.draw] ∧
    (Reservation.handleSubmitResolve resSubmittingState ((9 : ℚ)/10)).submitStatus
        = some SubmitStatus.success ∧
    (Newsletter.handleSubmitStart newsFilledState).2
        = [FormAction.startDelay 1200, FormAction.draw] ∧
    (Loyalty.handleSubmitStart loyFilledState).2
        = [FormAction.startDelay 1200, FormAction.draw] :=
  ⟨fixed_delay_and_success_threshold.1 resFilledState (by decide) (by decide),
   (fixed_delay_and_success_threshold.2.1 resSubmittingState ((9 : ℚ)/10)).mpr (by norm_num),
   fixed_delay_and_success_threshold.2.2.1 newsFilledState (by decide) (by decide),
   fixed_delay_and_success_threshold.2.2.2.2.1 loyFilledState (by decide) (by decide)⟩

/-- C1: a successful resolution resets all field values to their initial
defaults and, along the actual submit flow, leaves the errors object empty;
a failed resolution never alters field values.  Stated for all three
forms. -/
theorem submit_success_resets_and_failure_preserves :
    (∀ (s : Reservation.State) (r : ℚ), (1 : ℚ)/5 < r →
      (Reservation.handleSubmitResolve s r).formData = Reservation.initialFormData) ∧
    (∀ (s : Reservation.State) (r : ℚ), s.isSubmitting = false →
      Reservation.hasErrors (Reservation.validateForm s.formData) = false →
      (1 : ℚ)/5 < r →
      (Reservation.handleSubmitResolve (Reservation.handleSubmitStart s).1 r).errors
        = Reservation.emptyErrors) ∧
    (∀ (s : Reservation.State) (r : ℚ), ¬ (1 : ℚ)/5 < r →
      (Reservation.handleSubmitResolve s r).formData = s.formData) ∧
    (∀ (s : Newsletter.State) (r : ℚ), (1 : ℚ)/10 < r →
      (Newsletter.handleSubmitResolve s r).formData = Newsletter.initialFormData) ∧
    (∀ (s : Newsletter.State) (r : ℚ), s.isSubmitting = false →
      Newsletter.hasErrors (Newsletter.validateForm s.formData) = false →
      (1 : ℚ)/10 < r →
      (Newsletter.handleSubmitResolve (Newsletter.handleSubmitStart s).1 r).errors
        = Newsletter.emptyErrors) ∧
    (∀ (s : Newsletter.State) (r : ℚ), ¬ (1 : ℚ)/10 < r →
      (Newsletter.handleSubmitResolve s r).formData = s.formData) ∧
    (∀ (s : Loyalty.State) (r : ℚ), (1 : ℚ)/10 < r →
      (Loyalty.handleSubmitResolve s r).membershipData = Loyalty.initialMembershipData) ∧
    (∀ (s : Loyalty.State) (r : ℚ), s.isSubmitting = false →
      Loyalty.hasErrors (Loyalty.validateForm s.membershipData) = false →
      (1 : ℚ)/10 < r →
      (Loyalty.handleSubmitResolve (Loyalty.handleSubmitStart s).1 r).errors
        = Loyalty.emptyErrors) ∧
    (∀ (s : Loyalty.State) (r : ℚ), ¬ (1 : ℚ)/10 < r →
      (Loyalty.handleSubmitResolve s r).membershipData = s.membershipData) := by
  refine ⟨?_, ?_, ?_, ?_, ?_, ?_, ?_, ?_, ?_⟩
  · intro s r h; unfold Reservation.handleSubmitResolve; rw [if_pos h]
  · intro s r hs he hr
    unfold Reservation.handleSubmitResolve
    rw [if_pos hr]
    simp [Reservation.handleSubmitStart, hs, he]
  · intro s r h; unfold Reservation.handleSubmitResolve; rw [if_neg h]
  · intro s r h; unfold Newsletter.handleSubmitResolve; rw [if_pos h]
  · intro s r hs he hr
    unfold Newsletter.handleSubmitResolve
    rw [if_pos hr]
    simp [Newsletter.handleSubmitStart, hs, he]
  · intro s r h; unfold Newsletter.handleSubmitResolve; rw [if_neg h]
  · intro s r h; unfold Loyalty.handleSubmitResolve; rw [if_pos h]
  · intro s r hs he hr
    unfold Loyalty.handleSubmitResolve
    rw [if_pos hr]
    simp [Loyalty.handleSubmitStart, hs, he]
  · intro s r h; unfold Loyalty.handleSubmitResolve; rw [if_neg h]

/-- Witness for the success-reset and failure-frame theorem at concrete
valid states of the three forms, with a successful draw of nine tenths and
a failing draw of one twentieth. -/
theorem submit_success_resets_and_failure_preserves_witness :
    (Reservation.handleSubmitResolve resSubmittingState ((9 : ℚ)/10)).formData
        = Reservation.initialFormData ∧
    (Reservation.handleSubmitResolve (Reservation.handleSubmitStart resFilledState).1
        ((9 : ℚ)/10)).errors = Reservation.emptyErrors ∧
    (Reservation.handleSubmitResolve resSubmittingState ((1 : ℚ)/20)).formData
        = resSubmittingState.formData ∧
    (Newsletter.handleSubmitResolve (Newsletter.handleSubmitStart newsFilledState).1
        ((9 : ℚ)/10)).errors = Newsletter.emptyErrors ∧
    (Newsletter.handleSubmitResolve newsFilledState ((1 : ℚ)/20)).formData
        = newsFilledState.formData ∧
    (Loyalty.handleSubmitResolve (Loyalty.handleSubmitStart loyFilledState).1
        ((9 : ℚ)/10)).errors = Loyalty.emptyErrors ∧
    (Loyalty.handleSubmitResolve loyFilledState ((1 : ℚ)/20)).membershipData
        = loyFilledState.membershipData :=
  ⟨submit_success_resets_and_failure_preserves.1 resSubmittingState _ (by norm_num),
   submit_success_resets_and_failure_preserves.2.1 resFilledState _ (by decide) (by decide)
     (by norm_num),
   submit_success_resets_and_failure_preserves.2.2.1 resSubmittingState _ (by norm_num),
   submit_success_resets_and_failure_preserves.2.2.2.2.1 newsFilledState _ (by decide)
     (by decide) (by norm_num),
   submit_success_resets_and_failure_preserves.2.2.2.2.2.1 newsFilledState _ (by norm_num),
   submit_success_resets_and_failure_preserves.2.2.2.2.2.2.2.1 loyFilledState _ (by decide)
     (by decide) (by norm_num),
   submit_success_resets_and_failure_preserves.2.2.2.2.2.2.2.2 loyFilledState _ (by norm_num)⟩

/-- C6, counterexample: a reachable reservation state whose status banner is
success, on which editing a field leaves the status untouched instead of
clearing it.  The claim that editing any field clears a non-null status is
therefore false of the code. -/
theorem edit_leaves_status_set :
    (∃ g, Reservation.Reach resSuccessState g) ∧
    resSuccessState.submitStatus = some SubmitStatus.success ∧
    (Reservation.handleInputChange resSuccessState
        (Reservation.Edit.name "Bob")).submitStatus = some SubmitStatus.success := by
  refine ⟨⟨_, resSuccessState_reach⟩, resSuccessState_status, ?_⟩
  show resSuccessState.submitStatus = _
  exact resSuccessState_status

/-- C6, amended: the status banner is cleared when the loyalty signup form
is toggled and when a submit attempt enters the submitting state; editing a
field leaves the status unchanged; the resolution of an attempt sets it
exactly once, to success or to error according to the draw. -/
theorem status_clear_and_set_discipline :
    (∀ s : Loyalty.State, (Loyalty.toggleSignupForm s).submitStatus = none) ∧
    (∀ s : Reservation.State, s.isSubmitting = false →
      Reservation.hasErrors (Reservation.validateForm s.formData) = false →
      (Reservation.handleSubmitStart s).1.submitStatus = none) ∧
    (∀ (s : Reservation.State) (ev : Reservation.Edit),
      (Reservation.handleInputChange s ev).submitStatus = s.submitStatus) ∧
    (∀ (s : Reservation.State) (r : ℚ),
      (Reservation.handleSubmitResolve s r).submitStatus
        = some (if (1 : ℚ)/5 < r then SubmitStatus.success else SubmitStatus.error)) := by
  refine ⟨fun s => rfl, ?_, fun s ev => rfl, ?_⟩
  · intro s hs he; simp [Reservation.handleSubmitStart, hs, he]
  · intro s r; unfold Reservation.handleSubmitResolve
    by_cases h : (1 : ℚ)/5 < r
    · rw [if_pos h, if_pos h]
    · rw [if_neg h, if_neg h]

/-- Witness for the status-discipline theorem at the concrete filled
reservation state. -/
theorem status_clear_and_set_discipline_witness :
    (Reservation.handleSubmitStart resFilledState).1.submitStatus = none :=
  status_clear_and_set_discipline.2.1 resFilledState (by decide) (by decide)

/-- A reservation value set in which every required field is whitespace-only
(party size keeps its in-range default, and the optional special-requests
field is empty). -/
def resWhitespaceData : Reservation.FormData :=
  { date := " ", time := " ", partySize := 2, name := " ", email := " ",
    phone := " ", specialRequests := "" }

/-- C2, counterexample: with every required reservation field
whitespace-only, the validator produces no entry for the date and time
fields, because their required checks are plain truthiness tests that a
whitespace-only string passes.  The claim that such a state yields an error
entry for each required field is therefore false of the code. -/
theorem whitespace_date_passes_required_check :
    trimChars resWhitespaceData.date = [] ∧ trimChars resWhitespaceData.time = [] ∧
    trimChars resWhitespaceData.name = [] ∧ trimChars resWhitespaceData.email = [] ∧
    trimChars resWhitespaceData.phone = [] ∧
    (Reservation.validateForm resWhitespaceData).date = none ∧
    (Reservation.validateForm resWhitespaceData).time = none := by
  decide

/-- C2, amended: when the required text fields are empty or whitespace-only
the validator flags each of them, the date and time fields are flagged when
they are exactly empty, and in every such idle state a submit event just
publishes the validator result, stays out of the submitting state and
schedules neither a delay nor a draw.  The newsletter form satisfies the
claim as stated. -/
theorem empty_required_fields_block_submission :
    (∀ s : Reservation.State, s.isSubmitting = false →
      trimChars s.formData.name = [] → trimChars s.formData.email = [] →
      trimChars s.formData.phone = [] →
      (((Reservation.validateForm s.formData).name).isSome = true ∧
       ((Reservation.validateForm s.formData).email).isSome = true ∧
       ((Reservation.validateForm s.formData).phone).isSome = true ∧
       (s.formData.date = "" → ((Reservation.validateForm s.formData).date).isSome = true) ∧
       (s.formData.time = "" → ((Reservation.validateForm s.formData).time).isSome = true) ∧
       Reservation.handleSubmitStart s
         = ({ s with errors := Reservation.validateForm s.formData }, []))) ∧
    (∀ s : Newsletter.State, s.isSubmitting = false →
      trimChars s.formData.email = [] → trimChars s.formData.firstName = [] →
      ((Newsletter.validateForm s.formData).email = some "Email address is required" ∧
       (Newsletter.validateForm s.formData).firstName = some "First name is required" ∧
       Newsletter.handleSubmitStart s
         = ({ s with errors := Newsletter.validateForm s.formData }, []))) := by
  constructor
  · intro s hs hn he hp
    have h1 : (Reservation.validateForm s.formData).name = some "Name is required" := by
      simp [Reservation.validateForm, hn]
    have hhe : Reservation.hasErrors (Reservation.validateForm s.formData) = true := by
      simp [Reservation.hasErrors, h1]
    refine ⟨by rw [h1]; rfl, ?_, ?_, ?_, ?_, ?_⟩
    · simp [Reservation.validateForm, he]
    · simp [Reservation.validateForm, hp]
    · intro hd; simp [Reservation.validateForm, hd]
    · intro ht; simp [Reservation.validateForm, ht]
    · simp [Reservation.handleSubmitStart, hs, hhe]
  · intro s hs he hf
    have h1 : (Newsletter.validateForm s.formData).email = some "Email address is required" := by
      simp [Newsletter.validateForm, he]
    have h2 : (Newsletter.validateForm s.formData).firstName
        = some "First name is required" := by
      simp [Newsletter.validateForm, hf]
    have hhe : Newsletter.hasErrors (Newsletter.validateForm s.formData) = true := by
      simp [Newsletter.hasErrors, h1]
    exact ⟨h1, h2, by simp [Newsletter.handleSubmitStart, hs, hhe]⟩

/-- Witness for the empty-required-fields theorem at the mount states of the
reservation and newsletter forms, where every required field is the empty
string. -/
theorem empty_required_fields_block_submission_witness :
    ((Reservation.validateForm Reservation.initialState.formData).name).isSome = true ∧
    (Newsletter.validateForm Newsletter.initialState.formData).email
      = some "Email address is required" :=
  ⟨(empty_required_fields_block_submission.1 Reservation.initialState (by decide) (by decide)
      (by decide) (by decide)).1,
   (empty_required_fields_block_submission.2 Newsletter.initialState (by decide) (by decide)
      (by decide)).1⟩

/-- C4, counterexample: on the reachable reservation state holding the
published required-field errors, editing the email field stores the empty
string under the email key of the errors object instead of removing the
key.  The claim that the edit removes the field entry from the mapping is
therefore false of the code, although the entry is no longer truthy. -/
theorem edit_sets_error_entry_to_empty_not_removed :
    (∃ g, Reservation.Reach resErrorsState g) ∧
    jsTruthy (resErrorsState.errors.get Reservation.Field.email) = true ∧
    ((Reservation.handleInputChange resErrorsState
        (Reservation.Edit.email "jane@example.com")).errors.get Reservation.Field.email)
      = some "" :=
  ⟨⟨_, resErrorsState_reach⟩, by decide, by decide⟩

/-- C4, amended: editing a field whose errors entry is truthy immediately
overwrites that entry with the empty string — so the field no longer
reports an error — leaves every other entry unchanged, stores the new value
verbatim and runs no validation.  The key itself remains present rather
than being removed.  Stated for the reservation and newsletter forms. -/
theorem edit_optimistically_clears_error :
    (∀ (s : Reservation.State) (ev : Reservation.Edit),
      jsTruthy (s.errors.get ev.target) = true →
      ((Reservation.handleInputChange s ev).errors.get ev.target = some "" ∧
       jsTruthy ((Reservation.handleInputChange s ev).errors.get ev.target) = false ∧
       (∀ f, f ≠ ev.target →
         (Reservation.handleInputChange s ev).errors.get f = s.errors.get f) ∧
       (Reservation.handleInputChange s ev).formData = ev.apply s.formData)) ∧
    (∀ (s : Newsletter.State) (ev : Newsletter.Edit),
      jsTruthy (s.errors.get ev.target) = true →
      ((Newsletter.handleInputChange s ev).errors.get ev.target = some "" ∧
       jsTruthy ((Newsletter.handleInputChange s ev).errors.get ev.target) = false ∧
       (∀ f, f ≠ ev.target →
         (Newsletter.handleInputChange s ev).errors.get f = s.errors.get f) ∧
       (Newsletter.handleInputChange s ev).formData = ev.apply s.formData)) := by
  constructor
  · intro s ev h
    have he : (Reservation.handleInputChange s ev).errors
        = s.errors.set ev.target (some "") := by
      simp [Reservation.handleInputChange, h]
    refine ⟨?_, ?_, ?_, rfl⟩
    · rw [he, Reservation.Errors.res_get_set_self]
    · rw [he, Reservation.Errors.res_get_set_self]; rfl
    · intro f hf; rw [he, Reservation.Errors.res_get_set_of_ne _ _ _ _ hf]
  · intro s ev h
    have he : (Newsletter.handleInputChange s ev).errors
        = s.errors.set ev.target (some "") := by
      simp [Newsletter.handleInputChange, h]
    refine ⟨?_, ?_, ?_, rfl⟩
    · rw [he, Newsletter.Errors.news_get_set_self]
    · rw [he, Newsletter.Errors.news_get_set_self]; rfl
    · intro f hf; rw [he, Newsletter.Errors.news_get_set_of_ne _ _ _ _ hf]

/-- Witness for the optimistic-clear theorem at the concrete error states
of the reservation and newsletter forms. -/
theorem edit_optimistically_clears_error_witness :
    ((Reservation.handleInputChange resErrorsState
        (Reservation.Edit.email "a")).errors.get Reservation.Field.email = some "") ∧
    ((Newsletter.handleInputChange newsErrorsState
        (Newsletter.Edit.email "a")).errors.get Newsletter.Field.email = some "") :=
  ⟨(edit_optimistically_clears_error.1 resErrorsState (Reservation.Edit.email "a")
      (by decide)).1,
   (edit_optimistically_clears_error.2 newsErrorsState (Newsletter.Edit.email "a")
      (by decide)).1⟩

/-- C8: every non-empty email value that is syntactically invalid — missing
an at-sign, or missing a dot in the part after the at-sign — receives an
email error entry from the validator, and an email that trims to the empty
string receives the required-field error instead.  Stated for the
reservation and newsletter validators. -/
theorem invalid_email_flagged :
    (∀ d : Reservation.FormData, d.email ≠ "" → emailShapeInvalid d.email →
      ((Reservation.validateForm d).email).isSome = true) ∧
    (∀ d : Reservation.FormData, trimChars d.email = [] →
      (Reservation.validateForm d).email = some "Email is required") ∧
    (∀ d : Newsletter.FormData, d.email ≠ "" → emailShapeInvalid d.email →
      ((Newsletter.validateForm d).email).isSome = true) ∧
    (∀ d : Newsletter.FormData, trimChars d.email = [] →
      (Newsletter.validateForm d).email = some "Email address is required") := by
  refine ⟨?_, ?_, ?_, ?_⟩
  · intro d _ hinv
    by_cases ht : trimChars d.email = []
    · simp [Reservation.validateForm, ht]
    · simp [Reservation.validateForm, ht, emailRegexTest_eq_false hinv]
  · intro d ht; simp [Reservation.validateForm, ht]
  · intro d _ hinv
    by_cases ht : trimChars d.email = []
    · simp [Newsletter.validateForm, ht]
    · simp [Newsletter.validateForm, ht, emailRegexTest_eq_false hinv]
  · intro d ht; simp [Newsletter.validateForm, ht]

/-- Witness for the invalid-email theorem: an email without an at-sign, an
email whose domain part has no dot, and a whitespace-only email, each on a
concrete value set. -/
theorem invalid_email_flagged_witness :
    ((Reservation.validateForm
        { Reservation.initialFormData with email := "foo" }).email).isSome = true ∧
    ((Newsletter.validateForm
        { Newsletter.initialFormData with email := "jane@example" }).email).isSome = true ∧
    (Reservation.validateForm
        { Reservation.initialFormData with email := " " }).email = some "Email is required" :=
  ⟨invalid_email_flagged.1 _ (by decide) (Or.inl (by decide)),
   invalid_email_flagged.2.2.1 _ (by decide)
     (Or.inr ⟨['j', 'a', 'n', 'e'], ['e', 'x', 'a', 'm', 'p', 'l', 'e'],
       by decide, by decide⟩),
   invalid_email_flagged.2.1 _ (by decide)⟩

/-- C5: on every reachable reservation state, every field name whose key is
present in the errors object is one that failed the most recent validation
pass; in particular a pass has run.  Keys enter the object only as a whole
validator result, and editing only overwrites an existing key with the
empty string, so no operation leaves a key for a field that did not fail
the last pass. -/
theorem error_keys_come_from_last_validation_pass
    (s : Reservation.State) (g : Option Reservation.Errors)
    (h : Reservation.Reach s g) :
    ∀ f : Reservation.Field, ((s.errors.get f).isSome = true) →
      ∃ ge, g = some ge ∧ (ge.get f).isSome = true := by
  induction h with
  | init =>
      intro f hf
      cases f <;>
        simp [Reservation.initialState, Reservation.emptyErrors,
          Reservation.Errors.get] at hf
  | edit s g ev _ ih =>
      intro f hf
      by_cases hc : jsTruthy (s.errors.get ev.target) = true
      · have he : (Reservation.handleInputChange s ev).errors
            = s.errors.set ev.target (some "") := by
          simp [Reservation.handleInputChange, hc]
        by_cases hfe : f = ev.target
        · subst hfe
          exact ih _ (jsTruthy_isSome hc)
        · rw [he, Reservation.Errors.res_get_set_of_ne _ _ _ _ hfe] at hf
          exact ih f hf
      · have he : (Reservation.handleInputChange s ev).errors = s.errors := by
          simp [Reservation.handleInputChange, hc]
        rw [he] at hf
        exact ih f hf
  | submit s g _ ih =>
      intro f hf
      by_cases hs : s.isSubmitting = true
      · simp only [Reservation.handleSubmitStart, hs, if_true] at hf ⊢
        exact ih f hf
      · rw [if_neg hs]
        by_cases he : Reservation.hasErrors (Reservation.validateForm s.formData) = true
        · refine ⟨Reservation.validateForm s.formData, rfl, ?_⟩
          have hee : (Reservation.handleSubmitStart s).1.errors
              = Reservation.validateForm s.formData := by
            simp [Reservation.handleSubmitStart, hs, he]
          rw [hee] at hf
          exact hf
        · have hee : (Reservation.handleSubmitStart s).1.errors
              = Reservation.emptyErrors := by
            simp [Reservation.handleSubmitStart, hs, he]
          rw [hee] at hf
          cases f <;> simp [Reservation.emptyErrors, Reservation.Errors.get] at hf
  | resolve s g r _ _ _ _ ih =>
      intro f hf
      have he : (Reservation.handleSubmitResolve s r).errors = s.errors := by
        unfold Reservation.handleSubmitResolve
        split <;> rfl
      rw [he] at hf
      exact ih f hf

/-- Witness for the errors-provenance theorem at the concrete reachable
error state: the published email error is traced back to the validation
pass on the mount values. -/
theorem error_keys_come_from_last_validation_pass_witness :
    ∃ ge, some (Reservation.validateForm Reservation.initialState.formData) = some ge ∧
      (ge.get Reservation.Field.email).isSome = true :=
  error_keys_come_from_last_validation_pass resErrorsState
    (some (Reservation.validateForm Reservation.initialState.formData))
    resErrorsState_reach Reservation.Field.email (by decide)
